import Mathlib

/-!
Shallow embedding of the scene-graph core of the COMPAS repository:
`src/compas/scene/sceneobject.py` and `src/compas/scene/meshobject.py`.

External collaborators (the geometry kernel, the color model, the tree
primitive, the rendering backends) are abstracted as type parameters and
function parameters:

* `F` is the type of local frames, `T` the type of transformations.
  `Transformation` composition is multiplication and the default
  `Transformation()` is the identity, so `T` carries a `Monoid` instance;
  `Transformation.from_frame` becomes an arbitrary function `from_frame : F → T`.
* `C` is the type of colors; the consumed color primitives
  (`is_light`, `darkened`, `lightened`) are gathered in `ColorOps`.
* `G` is the type of backend handles ("guids"), `K` the type of mesh vertex
  keys, `P` the type of 3D points, `D` the type of wrapped data items.

Python exceptions become `Except PyError`; attribute caches (`_contrastcolor`,
`_guids`, `_vertex_xyz`) become `Option` fields, with `none` playing the role
of Python `None`; property getters that populate a cache return the value
together with the updated state.
-/

namespace Compas

/-- The Python exceptions raised by the scene-graph core. -/
inductive PyError where
  | notImplementedError
  | typeError
deriving DecidableEq

/-! ## Scene tree nodes and `SceneObject.worldtransformation`

`SceneObject.worldtransformation` (sceneobject.py lines 118-135) only reads
`parent.frame` along the ancestor chain and `self.transformation`, so the
part of a scene object it depends on is captured by `SceneNode`.  The
ancestor chain is passed explicitly, nearest parent first, with the tree
root sentinel excluded: the source's `while parent and not parent.is_root`
loop stops at the root, so the root never contributes a frame. -/

/-- The frame/transformation data of one node of the scene tree. -/
structure SceneNode (F T : Type) where
  frame : Option F
  transformation : Option T
deriving DecidableEq

/-- The source's frame-collecting loop: walk the ancestors (nearest parent
first, root excluded) and keep each one's frame when it is set
(`if parent.frame: frame_stack.append(parent.frame)`). -/
def frame_stack {F T : Type} (ancestors : List (SceneNode F T)) : List F :=
  ancestors.filterMap SceneNode.frame

/-- Python's `reduce(mul, ms)` guarded by `if matrices: ... else Transformation()`:
fold the list by multiplication from its head, or return the default
(the identity transformation) when the list is empty. -/
def reduce_mul {T : Type} [Mul T] (default : T) : List T → T
  | [] => default
  | m :: ms => ms.foldl (fun a b => a * b) m

/-- `SceneObject.worldtransformation` (sceneobject.py lines 118-135):
convert the collected ancestor frames to transformations, compose them in
reverse collection order (`reduce(mul, matrices[::-1])`, so the outermost
ancestor is applied first), defaulting to the identity, then post-multiply
by the node's own local transformation when it is set. -/
def worldtransformation {F T : Type} [Monoid T] (from_frame : F → T)
    (self : SceneNode F T) (ancestors : List (SceneNode F T)) : T :=
  let matrices := (frame_stack ancestors).map from_frame
  let w := reduce_mul 1 matrices.reverse
  match self.transformation with
  | some t => w * t
  | none => w

/-! ## `SceneObject` state and its attribute methods -/

/-- The consumed color primitives of `compas.colors.Color`. -/
structure ColorOps (C : Type) where
  is_light : C → Bool
  darkened : C → Nat → C
  lightened : C → Nat → C

/-- The per-instance state of a `SceneObject` that the modelled methods
read or write: the wrapped item, the guid cache, the local frame and
transformation, the contrast-color cache and the current color
(sceneobject.py `__init__`, lines 66-77). -/
structure SceneObjectState (D C F T G : Type) where
  _item : D
  _guids : Option (List G)
  _frame : Option F
  _transformation : Option T
  _contrastcolor : Option C
  color : C

variable {D C F T G : Type}

/-- The `guids` property (sceneobject.py lines 98-100): `self._guids or []`. -/
def SceneObjectState.guids (s : SceneObjectState D C F T G) : List G :=
  s._guids.getD []

/-- The `color` descriptor assignment: store the new color; the
contrast-color cache is untouched. -/
def SceneObjectState.color_set (c : C) (s : SceneObjectState D C F T G) :
    SceneObjectState D C F T G :=
  { s with color := c }

/-- The `contrastcolor` property getter (sceneobject.py lines 137-144):
when the cache is unset, compute a 50%-darkened variant of `color` if the
color is light, else a 50%-lightened variant, store it, and return it;
when the cache is set, return the cached value unchanged. -/
def contrastcolor_get (tools : ColorOps C) (s : SceneObjectState D C F T G) :
    C × SceneObjectState D C F T G :=
  match s._contrastcolor with
  | some cc => (cc, s)
  | none =>
    let cc := if tools.is_light s.color then tools.darkened s.color 50
              else tools.lightened s.color 50
    (cc, { s with _contrastcolor := some cc })

/-- The `contrastcolor` setter (sceneobject.py lines 146-148): explicit
reassignment overwrites the cache (`Color.coerce` is the identity on
already-coerced colors and is abstracted away). -/
def contrastcolor_set (c : C) (s : SceneObjectState D C F T G) :
    SceneObjectState D C F T G :=
  { s with _contrastcolor := some c }

/-- `SceneObject.clear` (sceneobject.py lines 198-201): release the backend
handles through the external context `clear(guids=self.guids)` call (no
modelled state) and reset the guid cache to `None`. -/
def SceneObject_clear (s : SceneObjectState D C F T G) :
    SceneObjectState D C F T G :=
  { s with _guids := none }

/-- `SceneObject.draw` (sceneobject.py lines 193-196): abstract, raises
`NotImplementedError`. -/
def SceneObject_draw (s : SceneObjectState D C F T G) : Except PyError Unit :=
  .error .notImplementedError

/-- `SceneObject.__from_data__` (sceneobject.py lines 87-89): always raises
`TypeError("Serialisation outside Scene not allowed.")`. -/
def SceneObject_from_data (data : D) :
    Except PyError (SceneObjectState D C F T G) :=
  .error .typeError

/-! ## `SceneObject.add` -/

/-- The argument of `SceneObject.add`: either an existing scene object or a
raw data item (the source's `isinstance(item, SceneObject)` branch). -/
inductive AddItem (D O : Type) where
  | sceneobject (o : O)
  | data (d : D)

/-- `SceneObject.add` (sceneobject.py lines 150-175): an existing
`SceneObject` is attached as-is; a raw item is wrapped by the
`SceneObject(item, **kwargs)` factory (`__new__` dispatching through
`get_sceneobject_cls`, abstracted as `new`); the attached object is appended
to the children (the tree primitive's `add`) and returned. -/
def add {O : Type} (new : D → O) (children : List O) :
    AddItem D O → List O × O
  | .sceneobject o => (children ++ [o], o)
  | .data d =>
    let o := new d
    (children ++ [o], o)

/-! ## `MeshObject` state and methods -/

/-- The per-instance state of a `MeshObject` that the modelled methods read
or write.  The mesh is abstracted as its vertex list in iteration order,
each vertex key paired with its real `xyz` coordinates (the consumed mesh
primitive guarantees `mesh.vertices()` and `mesh.vertices_attributes("xyz")`
iterate in the same stable order). -/
structure MeshObjectState (C F T G K P : Type) where
  _mesh : List (K × P)
  _vertex_xyz : Option (List (K × P))
  _guids : Option (List G)
  _frame : Option F
  _transformation : Option T
  _contrastcolor : Option C
  color : C

variable {K P : Type}

/-- The frame/transformation data of a `MeshObject`, for the inherited
`worldtransformation` walk. -/
def MeshObjectState.node (s : MeshObjectState C F T G K P) : SceneNode F T :=
  ⟨s._frame, s._transformation⟩

/-- The `mesh` setter (meshobject.py lines 95-100): store the new mesh and
reset both the local transformation and the vertex-coordinate cache. -/
def MeshObjectState.mesh_set (m : List (K × P)) (s : MeshObjectState C F T G K P) :
    MeshObjectState C F T G K P :=
  { s with _mesh := m, _transformation := none, _vertex_xyz := none }

/-- The `MeshObject.transformation` setter (meshobject.py lines 107-111):
reset the vertex-coordinate cache, then store the new transformation. -/
def MeshObjectState.transformation_set (t : Option T) (s : MeshObjectState C F T G K P) :
    MeshObjectState C F T G K P :=
  { s with _vertex_xyz := none, _transformation := t }

/-- The consumed geometry primitive `transform_points(points, X)`: apply the
transformation to every point of the batch, in order. -/
def transform_points {T P : Type} (apply : T → P → P) (points : List P) (X : T) :
    List P :=
  points.map (apply X)

/-- The compute path of the `vertex_xyz` getter (meshobject.py lines
116-119): read the mesh's real vertex coordinates, transform them through
the current `worldtransformation`, and zip the transformed points with the
vertex keys (`dict(zip(self.mesh.vertices(), points))`). -/
def compute_vertex_xyz [Monoid T] (apply : T → P → P) (from_frame : F → T)
    (ancestors : List (SceneNode F T)) (s : MeshObjectState C F T G K P) :
    List (K × P) :=
  let points := s._mesh.map Prod.snd
  let points := transform_points apply points (worldtransformation from_frame s.node ancestors)
  (s._mesh.map Prod.fst).zip points

/-- The `vertex_xyz` property getter (meshobject.py lines 113-120): return
the cached mapping when it is set; otherwise recompute it from the current
mesh and world transformation, cache it, and return it. -/
def vertex_xyz_get [Monoid T] (apply : T → P → P) (from_frame : F → T)
    (ancestors : List (SceneNode F T)) (s : MeshObjectState C F T G K P) :
    List (K × P) × MeshObjectState C F T G K P :=
  match s._vertex_xyz with
  | some v => (v, s)
  | none =>
    let v := compute_vertex_xyz apply from_frame ancestors s
    (v, { s with _vertex_xyz := some v })

/-! ## Abstract draw/clear stubs of `MeshObject` -/

/-- `MeshObject.draw_vertices` (meshobject.py lines 127-143): abstract,
raises `NotImplementedError`. -/
def MeshObject_draw_vertices (s : MeshObjectState C F T G K P) :
    Except PyError (List G) :=
  .error .notImplementedError

/-- `MeshObject.draw_edges` (meshobject.py lines 145-161): abstract, raises
`NotImplementedError`. -/
def MeshObject_draw_edges (s : MeshObjectState C F T G K P) :
    Except PyError (List G) :=
  .error .notImplementedError

/-- `MeshObject.draw_faces` (meshobject.py lines 163-178): abstract, raises
`NotImplementedError`. -/
def MeshObject_draw_faces (s : MeshObjectState C F T G K P) :
    Except PyError (List G) :=
  .error .notImplementedError

/-- `MeshObject.draw` (meshobject.py lines 194-202): abstract, raises
`NotImplementedError`. -/
def MeshObject_draw (s : MeshObjectState C F T G K P) : Except PyError Unit :=
  .error .notImplementedError

/-- `MeshObject.clear` (meshobject.py lines 204-212): abstract at this
level, raises `NotImplementedError` (it overrides the concrete
`SceneObject.clear`). -/
def MeshObject_clear (s : MeshObjectState C F T G K P) : Except PyError Unit :=
  .error .notImplementedError

/-- `MeshObject.clear_vertices` (meshobject.py lines 214-222): abstract,
raises `NotImplementedError`. -/
def MeshObject_clear_vertices (s : MeshObjectState C F T G K P) :
    Except PyError Unit :=
  .error .notImplementedError

/-- `MeshObject.clear_edges` (meshobject.py lines 224-232): abstract, raises
`NotImplementedError`. -/
def MeshObject_clear_edges (s : MeshObjectState C F T G K P) :
    Except PyError Unit :=
  .error .notImplementedError

/-- `MeshObject.clear_faces` (meshobject.py lines 234-242): abstract, raises
`NotImplementedError`. -/
def MeshObject_clear_faces (s : MeshObjectState C F T G K P) :
    Except PyError Unit :=
  .error .notImplementedError

/-! ## Dispatch of `clear` over the classes present in the source

`clear` behaves differently depending on the dynamic class of the scene
object: the base `SceneObject.clear` resets the guid cache, while
`MeshObject.clear` overrides it with an abstract stub that raises
`NotImplementedError`.  `clear_dispatch` models the virtual call. -/

/-- The scene-object classes of the source that define `clear`. -/
inductive SceneObjectKind where
  | base
  | meshobject
deriving DecidableEq

/-- The virtual `clear()` call: the base class resets the guid cache and
succeeds; the `MeshObject` override raises `NotImplementedError` and leaves
the state untouched. -/
def clear_dispatch (kind : SceneObjectKind) (s : SceneObjectState D C F T G) :
    Except PyError (SceneObjectState D C F T G) :=
  match kind with
  | .base => .ok (SceneObject_clear s)
  | .meshobject => .error .notImplementedError

/-! ## Concrete instances

For concrete evaluation, transformations are instantiated with natural
numbers under multiplication (a monoid), frames with natural numbers, and
`Transformation.from_frame` with an assignment that never yields the
identity, so that a present frame is observable in the composition. -/

/-- A concrete frame-to-transformation assignment on `Nat` (multiplicative
monoid): a frame `f` induces the transformation `f + 2`, never the
identity. -/
def natFromFrame : Nat → Nat := fun f => f + 2

/-- Concrete scene node `A`: frame `F1 = 1`, no local transformation. -/
def nodeA : SceneNode Nat Nat := ⟨some 1, none⟩

/-- Concrete scene node `B`: frame `F2 = 2` and local transformation `T = 7`. -/
def nodeB : SceneNode Nat Nat := ⟨some 2, some 7⟩

/-- Concrete scene node with a frame but no local transformation. -/
def selfNoTrans : SceneNode Nat Nat := ⟨some 3, none⟩

/-- Concrete ancestor chain in which no node has a frame set. -/
def bareAncestors : List (SceneNode Nat Nat) := [⟨none, some 5⟩, ⟨none, none⟩]

/-- Concrete color primitives on `Nat` grayscale values: light means at
least 128, darkening subtracts the percentage, lightening adds it. -/
def grayTools : ColorOps Nat :=
  ⟨fun c => decide (128 ≤ c), fun c p => c - p, fun c p => c + p⟩

/-- Concrete scene-object state with a light color and an unset
contrast-color cache. -/
def lightObject : SceneObjectState Nat Nat Nat Nat Nat :=
  ⟨0, none, none, none, none, 200⟩

/-- Concrete scene-object state with a nonempty guid cache. -/
def drawnObject : SceneObjectState Nat Nat Nat Nat Nat :=
  ⟨0, some [42], none, none, none, 0⟩

/-! ## Claims -/

/-- C1: the claim states that for root -> A(frame F1) -> B(frame F2,
transformation T), `B.worldtransformation` is `from_frame F1 * from_frame F2 * T`.
It is false: the parent-chain walk starts at `self.parent`, so B's own
frame F2 never enters the composition.  Counterexample at
F1 = 1, F2 = 2, T = 7 over the multiplicative monoid `Nat`:
the code yields `3 * 7 = 21` while the claim demands `3 * 4 * 7 = 84`. -/
theorem C1_counterexample :
    worldtransformation natFromFrame nodeB [nodeA] ≠
      natFromFrame 1 * natFromFrame 2 * 7 := by
  decide

/-- C1 (amended): for a three-level chain root -> A(frame F1) -> B(frame F2,
transformation T), `B.worldtransformation` equals `from_frame F1 * T`; B's
own frame F2 does not contribute (it affects only B's descendants). -/
theorem C1_amended {F T : Type} [Monoid T] (from_frame : F → T)
    (f1 f2 : F) (t : T) (a : Option T) :
    worldtransformation from_frame ⟨some f2, some t⟩ [⟨some f1, a⟩] =
      from_frame f1 * t :=
  rfl

/-- C2: for a scene object whose ancestors (root excluded) all have no frame
set and whose own local transformation is unset, `worldtransformation` is
the identity transformation. -/
theorem C2_no_ancestor_frames_identity {F T : Type} [Monoid T]
    (from_frame : F → T) (self : SceneNode F T)
    (ancestors : List (SceneNode F T))
    (hframes : ∀ a ∈ ancestors, a.frame = none)
    (htrans : self.transformation = none) :
    worldtransformation from_frame self ancestors = 1 := by
  have hstack : frame_stack ancestors = [] := by
    rw [frame_stack, List.filterMap_eq_nil_iff]
    exact hframes
  simp [worldtransformation, hstack, htrans, reduce_mul]

/-- C2 witness: a concrete node with its own frame set but no local
transformation, under two frameless ancestors, has the identity world
transformation. -/
theorem C2_witness :
    (∀ a ∈ bareAncestors, a.frame = none) ∧
      SceneNode.transformation selfNoTrans = none ∧
      worldtransformation natFromFrame selfNoTrans bareAncestors = 1 :=
  ⟨by decide, rfl,
    C2_no_ancestor_frames_identity natFromFrame selfNoTrans bareAncestors
      (by decide) rfl⟩

/-- C3: reassigning `mesh` or `transformation` on a `MeshObject` resets the
`vertex_xyz` cache, so the next read recomputes the mapping from the new
state through the current world transformation instead of returning the
previously cached mapping; reassigning `mesh` additionally resets the local
transformation cache. -/
theorem C3_cache_invalidated {C F T G K P : Type} [Monoid T]
    (apply : T → P → P) (from_frame : F → T)
    (ancestors : List (SceneNode F T)) (s : MeshObjectState C F T G K P)
    (m : List (K × P)) (t : Option T) :
    (vertex_xyz_get apply from_frame ancestors (s.mesh_set m)).1 =
        compute_vertex_xyz apply from_frame ancestors (s.mesh_set m) ∧
      (s.mesh_set m)._transformation = none ∧
      (vertex_xyz_get apply from_frame ancestors (s.transformation_set t)).1 =
        compute_vertex_xyz apply from_frame ancestors (s.transformation_set t) :=
  ⟨rfl, rfl, rfl⟩

/-- C4: reading `contrastcolor` with an unset cache returns the color
darkened by 50% when the color is light, and the color lightened by 50%
when it is not. -/
theorem C4_contrastcolor_adjustment {D C F T G : Type} (tools : ColorOps C)
    (s : SceneObjectState D C F T G) (hcache : s._contrastcolor = none) :
    (tools.is_light s.color = true →
        (contrastcolor_get tools s).1 = tools.darkened s.color 50) ∧
      (tools.is_light s.color = false →
        (contrastcolor_get tools s).1 = tools.lightened s.color 50) := by
  obtain ⟨it, g, f, tr, cc, col⟩ := s
  cases hcache
  constructor <;> intro hlight <;> simp [contrastcolor_get, hlight]

/-- C4 witness: for a concrete light color (grayscale 200) and an unset
cache, `contrastcolor` is the 50%-darkened color. -/
theorem C4_witness :
    SceneObjectState._contrastcolor lightObject = none ∧
      ColorOps.is_light grayTools (SceneObjectState.color lightObject) = true ∧
      (contrastcolor_get grayTools lightObject).1 =
        ColorOps.darkened grayTools (SceneObjectState.color lightObject) 50 :=
  ⟨rfl, rfl, (C4_contrastcolor_adjustment grayTools lightObject rfl).1 rfl⟩

/-- C5: once `contrastcolor` has been read (populating the cache),
reassigning `color` and reading `contrastcolor` again returns the same
cached value as before: the cache is not invalidated by color mutation. -/
theorem C5_contrastcolor_cache_stale {D C F T G : Type} (tools : ColorOps C)
    (s : SceneObjectState D C F T G) (c : C) :
    (contrastcolor_get tools
        (SceneObjectState.color_set c (contrastcolor_get tools s).2)).1 =
      (contrastcolor_get tools s).1 := by
  obtain ⟨it, g, f, tr, cc, col⟩ := s
  cases cc <;> rfl

/-- C6: `add` with an existing `SceneObject` attaches that very object as a
child and returns it (same identity, not re-wrapped); `add` with a raw data
item constructs exactly one new scene object through the factory dispatch,
attaches it as a child, and returns it. -/
theorem C6_add_identity_and_factory {D O : Type} (new : D → O)
    (children : List O) (o : O) (d : D) :
    (add new children (AddItem.sceneobject o)).2 = o ∧
      (add new children (AddItem.sceneobject o)).1 = children ++ [o] ∧
      (add new children (AddItem.data d)).2 = new d ∧
      (add new children (AddItem.data d)).1 = children ++ [new d] :=
  ⟨rfl, rfl, rfl, rfl⟩

/-- C7: the claim states that calling `clear()` on every `SceneObject`
resets the guid cache to empty.  It is false for a `MeshObject` at the base
level: `MeshObject.clear` overrides the concrete base method with an
abstract stub raising `NotImplementedError`, so the call on a concrete
state with a nonempty guid cache does not succeed with an emptied cache. -/
theorem C7_counterexample :
    ¬ ∃ s' : SceneObjectState Nat Nat Nat Nat Nat,
        clear_dispatch SceneObjectKind.meshobject drawnObject = Except.ok s' ∧
          s'.guids = [] := by
  rintro ⟨s', hs, -⟩
  exact Except.noConfusion hs

/-- C7 (amended): the base `SceneObject.clear` resets the guid cache to
empty regardless of its prior contents and is idempotent (calling it on an
already-empty cache is safe and leaves it empty); the `MeshObject`-level
override of `clear` instead raises `NotImplementedError`. -/
theorem C7_amended {D C F T G : Type} (s : SceneObjectState D C F T G) :
    (SceneObject_clear s).guids = [] ∧
      SceneObject_clear (SceneObject_clear s) = SceneObject_clear s ∧
      clear_dispatch SceneObjectKind.base s = Except.ok (SceneObject_clear s) ∧
      clear_dispatch SceneObjectKind.meshobject s =
        Except.error PyError.notImplementedError :=
  ⟨rfl, rfl, rfl, rfl⟩

/-- C8: `SceneObject.__from_data__` raises `TypeError` on every input; there
is no input on which it succeeds. -/
theorem C8_from_data_always_fails {D C F T G : Type} (data : D) :
    SceneObject_from_data (C := C) (F := F) (T := T) (G := G) data =
        Except.error PyError.typeError ∧
      ¬ ∃ s : SceneObjectState D C F T G,
          SceneObject_from_data data = Except.ok s :=
  ⟨rfl, fun ⟨_, hs⟩ => Except.noConfusion hs⟩

/-- C9: every abstract drawing or clearing operation left unimplemented at
this level (`SceneObject.draw`; `MeshObject.draw_vertices`, `draw_edges`,
`draw_faces`, `draw`, `clear`, `clear_vertices`, `clear_edges`,
`clear_faces`) raises `NotImplementedError` on every state. -/
theorem C9_abstract_methods_raise {D C F T G K P : Type}
    (s : SceneObjectState D C F T G) (m : MeshObjectState C F T G K P) :
    SceneObject_draw s = Except.error PyError.notImplementedError ∧
      MeshObject_draw_vertices m = Except.error PyError.notImplementedError ∧
      MeshObject_draw_edges m = Except.error PyError.notImplementedError ∧
      MeshObject_draw_faces m = Except.error PyError.notImplementedError ∧
      MeshObject_draw m = Except.error PyError.notImplementedError ∧
      MeshObject_clear m = Except.error PyError.notImplementedError ∧
      MeshObject_clear_vertices m = Except.error PyError.notImplementedError ∧
      MeshObject_clear_edges m = Except.error PyError.notImplementedError ∧
      MeshObject_clear_faces m = Except.error PyError.notImplementedError :=
  ⟨rfl, rfl, rfl, rfl, rfl, rfl, rfl, rfl, rfl⟩

/-- C10: a scene object's own frame never contributes to its own
`worldtransformation`: reassigning `self.frame` leaves the result
unchanged, because the ancestor walk starts at the parent and the node's
own frame is never read. -/
theorem C10_own_frame_irrelevant {F T : Type} [Monoid T] (from_frame : F → T)
    (self : SceneNode F T) (f : Option F)
    (ancestors : List (SceneNode F T)) :
    worldtransformation from_frame { self with frame := f } ancestors =
      worldtransformation from_frame self ancestors :=
  rfl

end Compas
